import Mathlib

/-!
Verification of the BSL Analyzer logo-generation scripts.

This file gives a shallow embedding of the two Python scripts
`create_hq_logo.py` and `create_logo_png.py` (library: PIL).  Each drawing
call becomes a symbolic `DrawOp`; an image is modelled as its mode, its
allocated and current dimensions, the ordered list of draw calls made on it,
and the ordered list of post-processing steps (resampling, filters) applied
to it.  Python `//` (floor division, always used with positive divisors in
these scripts) is translated as `/` on `Int`, which is Euclidean division and
agrees with floor division for positive divisors.  Calls such as
`int(206 - 67 * (i / 50))` on floats are translated as the exact rational
value floored (for the ranges occurring here the float computation is more
than 10 decimal orders of magnitude away from any integer boundary, so the
truncation of the float equals the floor of the exact rational).
-/

namespace BslLogo

/-- A 2-D integer point, as passed to the PIL draw calls. -/
structure Pt where
  x : Int
  y : Int
deriving DecidableEq, Repr

/-- An RGBA color as used by the scripts: four integer channels. -/
structure RGBA where
  r : Int
  g : Int
  b : Int
  a : Int
deriving DecidableEq, Repr

/-- A font handle: either a truetype font loaded from a named file at a given
size, or PIL's built-in default font. -/
inductive Font where
  | truetype (name : String) (size : Int)
  | builtin
deriving DecidableEq, Repr

/-- One drawing call issued against an `ImageDraw` object.  The four corner
arguments of the box-shaped primitives are the bounding-box coordinates
`[x0, y0, x1, y1]` passed in the source. -/
inductive DrawOp where
  | ellipseFill (x0 y0 x1 y1 : Int) (fill : RGBA)
  | ellipseOutline (x0 y0 x1 y1 : Int) (outline : RGBA) (width : Int)
  | line (p q : Pt) (fill : RGBA) (width : Int)
  | rectFill (x0 y0 x1 y1 : Int) (fill : RGBA)
  | roundedRectangle (x0 y0 x1 y1 : Int) (radius : Int) (fill : RGBA)
      (outline : RGBA) (width : Int)
  | text (x y : Int) (s : String) (fill : RGBA) (font : Font) (anchor : String)
deriving DecidableEq, Repr

/-- The paint color of a draw call (for the rounded rectangle, its fill). -/
def DrawOp.fillColor : DrawOp → RGBA
  | .ellipseFill _ _ _ _ c => c
  | .ellipseOutline _ _ _ _ c _ => c
  | .line _ _ c _ => c
  | .rectFill _ _ _ _ c => c
  | .roundedRectangle _ _ _ _ _ f _ _ => f
  | .text _ _ _ c _ _ => c

/-- Whether a draw call is a filled ellipse. -/
def DrawOp.isEllipseFill : DrawOp → Bool
  | .ellipseFill _ _ _ _ _ => true
  | _ => false

/-- Whether a draw call is a filled rectangle. -/
def DrawOp.isRectFill : DrawOp → Bool
  | .rectFill _ _ _ _ _ => true
  | _ => false

/-- A resampling filter, as passed to `Image.resize`. -/
inductive ResampleFilter where
  | lanczos
  | nearest
  | box
  | bilinear
  | bicubic
deriving DecidableEq, Repr

/-- A post-processing step applied to a whole image after (some of) the draw
calls: either a resize to new dimensions with a given filter, or an
`ImageFilter.UnsharpMask(radius, percent, threshold)` pass. -/
inductive PostStep where
  | resample (w h : Int) (f : ResampleFilter)
  | unsharpMask (radius : ℚ) (percent : Int) (threshold : Int)
deriving DecidableEq, Repr

/-- The symbolic state of a PIL image: its mode, the dimensions it was
allocated with (`Image.new`), its current dimensions, the draw calls made on
it in paint order, and the post-processing steps applied in order. -/
structure Img where
  mode : String
  allocW : Int
  allocH : Int
  width : Int
  height : Int
  ops : List DrawOp
  postSteps : List PostStep
deriving DecidableEq, Repr

/-- `Image.new(mode, (w, h), ...)`. -/
def Img.new (mode : String) (w h : Int) : Img :=
  ⟨mode, w, h, w, h, [], []⟩

/-- Record one draw call on the image. -/
def Img.draw (img : Img) (op : DrawOp) : Img :=
  { img with ops := img.ops ++ [op] }

/-- Record a list of draw calls on the image, in order. -/
def Img.drawMany (img : Img) (newOps : List DrawOp) : Img :=
  { img with ops := img.ops ++ newOps }

/-- `img.resize((w, h), filter)`. -/
def Img.resize (img : Img) (w h : Int) (f : ResampleFilter) : Img :=
  { img with width := w, height := h,
             postSteps := img.postSteps ++ [PostStep.resample w h f] }

/-- `img.filter(ImageFilter.UnsharpMask(radius, percent, threshold))`. -/
def Img.unsharp (img : Img) (radius : ℚ) (percent threshold : Int) : Img :=
  { img with postSteps := img.postSteps ++ [PostStep.unsharpMask radius percent threshold] }

@[simp] lemma Img.mode_new (m : String) (w h : Int) : (Img.new m w h).mode = m := rfl

@[simp] lemma Img.mode_draw (img : Img) (op : DrawOp) : (img.draw op).mode = img.mode := rfl

@[simp] lemma Img.mode_drawMany (img : Img) (l : List DrawOp) :
    (img.drawMany l).mode = img.mode := rfl

@[simp] lemma Img.mode_resize (img : Img) (w h : Int) (f : ResampleFilter) :
    (img.resize w h f).mode = img.mode := rfl

@[simp] lemma Img.mode_unsharp (img : Img) (r : ℚ) (p t : Int) :
    (img.unsharp r p t).mode = img.mode := rfl

@[simp] lemma Img.width_new (m : String) (w h : Int) : (Img.new m w h).width = w := rfl

@[simp] lemma Img.height_new (m : String) (w h : Int) : (Img.new m w h).height = h := rfl

@[simp] lemma Img.width_draw (img : Img) (op : DrawOp) : (img.draw op).width = img.width := rfl

@[simp] lemma Img.height_draw (img : Img) (op : DrawOp) : (img.draw op).height = img.height := rfl

@[simp] lemma Img.width_drawMany (img : Img) (l : List DrawOp) :
    (img.drawMany l).width = img.width := rfl

@[simp] lemma Img.height_drawMany (img : Img) (l : List DrawOp) :
    (img.drawMany l).height = img.height := rfl

@[simp] lemma Img.width_resize (img : Img) (w h : Int) (f : ResampleFilter) :
    (img.resize w h f).width = w := rfl

@[simp] lemma Img.height_resize (img : Img) (w h : Int) (f : ResampleFilter) :
    (img.resize w h f).height = h := rfl

@[simp] lemma Img.width_unsharp (img : Img) (r : ℚ) (p t : Int) :
    (img.unsharp r p t).width = img.width := rfl

@[simp] lemma Img.height_unsharp (img : Img) (r : ℚ) (p t : Int) :
    (img.unsharp r p t).height = img.height := rfl

@[simp] lemma Img.allocW_new (m : String) (w h : Int) : (Img.new m w h).allocW = w := rfl

@[simp] lemma Img.allocH_new (m : String) (w h : Int) : (Img.new m w h).allocH = h := rfl

@[simp] lemma Img.allocW_draw (img : Img) (op : DrawOp) : (img.draw op).allocW = img.allocW := rfl

@[simp] lemma Img.allocH_draw (img : Img) (op : DrawOp) : (img.draw op).allocH = img.allocH := rfl

@[simp] lemma Img.allocW_drawMany (img : Img) (l : List DrawOp) :
    (img.drawMany l).allocW = img.allocW := rfl

@[simp] lemma Img.allocH_drawMany (img : Img) (l : List DrawOp) :
    (img.drawMany l).allocH = img.allocH := rfl

@[simp] lemma Img.allocW_resize (img : Img) (w h : Int) (f : ResampleFilter) :
    (img.resize w h f).allocW = img.allocW := rfl

@[simp] lemma Img.allocH_resize (img : Img) (w h : Int) (f : ResampleFilter) :
    (img.resize w h f).allocH = img.allocH := rfl

@[simp] lemma Img.allocW_unsharp (img : Img) (r : ℚ) (p t : Int) :
    (img.unsharp r p t).allocW = img.allocW := rfl

@[simp] lemma Img.allocH_unsharp (img : Img) (r : ℚ) (p t : Int) :
    (img.unsharp r p t).allocH = img.allocH := rfl

@[simp] lemma Img.ops_new (m : String) (w h : Int) : (Img.new m w h).ops = [] := rfl

@[simp] lemma Img.ops_draw (img : Img) (op : DrawOp) : (img.draw op).ops = img.ops ++ [op] := rfl

@[simp] lemma Img.ops_drawMany (img : Img) (l : List DrawOp) :
    (img.drawMany l).ops = img.ops ++ l := rfl

@[simp] lemma Img.ops_resize (img : Img) (w h : Int) (f : ResampleFilter) :
    (img.resize w h f).ops = img.ops := rfl

@[simp] lemma Img.ops_unsharp (img : Img) (r : ℚ) (p t : Int) :
    (img.unsharp r p t).ops = img.ops := rfl

@[simp] lemma Img.postSteps_new (m : String) (w h : Int) : (Img.new m w h).postSteps = [] := rfl

@[simp] lemma Img.postSteps_draw (img : Img) (op : DrawOp) :
    (img.draw op).postSteps = img.postSteps := rfl

@[simp] lemma Img.postSteps_drawMany (img : Img) (l : List DrawOp) :
    (img.drawMany l).postSteps = img.postSteps := rfl

@[simp] lemma Img.postSteps_resize (img : Img) (w h : Int) (f : ResampleFilter) :
    (img.resize w h f).postSteps = img.postSteps ++ [PostStep.resample w h f] := rfl

@[simp] lemma Img.postSteps_unsharp (img : Img) (r : ℚ) (p t : Int) :
    (img.unsharp r p t).postSteps = img.postSteps ++ [PostStep.unsharpMask r p t] := rfl

/-! ## `create_hq_logo.py` -/

/-- `create_smooth_circle(draw, center, radius, color, width=0)`: a filled
ellipse when `width == 0`, otherwise an outlined one. -/
def create_smooth_circle (center : Pt) (radius : Int) (color : RGBA)
    (width : Int := 0) : DrawOp :=
  if width = 0 then
    DrawOp.ellipseFill (center.x - radius) (center.y - radius)
      (center.x + radius) (center.y + radius) color
  else
    DrawOp.ellipseOutline (center.x - radius) (center.y - radius)
      (center.x + radius) (center.y + radius) color width

/-- `create_smooth_line(draw, start, end, color, width=3)`. -/
def create_smooth_line (start stop : Pt) (color : RGBA) (width : Int := 3) : DrawOp :=
  DrawOp.line start stop color width

/-- The `try: ImageFont.truetype("arial.ttf", size) except: ImageFont.load_default()`
blocks of both scripts: `arialAvailable` records whether loading the truetype
font succeeds; when it does not, the built-in default font is substituted. -/
def load_font_with_fallback (arialAvailable : Bool) (fontSize : Int) : Font :=
  if arialAvailable then Font.truetype ("arial.ttf") fontSize else Font.builtin

/-- `current_radius = radius - i * radius // gradient_steps` with
`gradient_steps = 50` (from `create_hq_bsl_logo`). -/
def hq_current_radius (radius : Int) (i : Nat) : Int :=
  radius - ((i : Int) * radius) / 50

/-- `alpha = int(255 * (gradient_steps - i) / gradient_steps * 0.9)` with
`gradient_steps = 50`: the exact rational is `459 * (50 - i) / 100`. -/
def hq_grad_alpha (i : Nat) : Int :=
  (459 * (50 - (i : Int))) / 100

/-- The interpolated ring color of `create_hq_bsl_logo`:
`r = int(206 - (206 - 139) * progress)`, `g = int(66 - (66 - 44) * progress)`,
`b = int(43 - (43 - 27) * progress)` with `progress = i / gradient_steps`,
written as floors of the exact rationals over the common denominator 50. -/
def hq_grad_color (i : Nat) : RGBA :=
  ⟨(10300 - 67 * (i : Int)) / 50,
   (3300 - 22 * (i : Int)) / 50,
   (2150 - 16 * (i : Int)) / 50,
   hq_grad_alpha i⟩

/-- One iteration of the gradient loop of `create_hq_bsl_logo`: the circle is
drawn only under `if current_radius > 0`. -/
def hq_gradient_op (center radius : Int) (i : Nat) : Option DrawOp :=
  if 0 < hq_current_radius radius i then
    some (create_smooth_circle ⟨center, center⟩ (hq_current_radius radius i)
      (hq_grad_color i) 0)
  else
    none

/-- `for i in range(gradient_steps): ... if current_radius > 0: create_smooth_circle(...)`. -/
def hq_gradient_ops (center radius : Int) : List DrawOp :=
  (List.range 50).filterMap (hq_gradient_op center radius)

/-- The `left_points` list of `create_hq_bsl_logo`. -/
def left_points (center : Int) : List Pt :=
  [⟨center - 80, center - 100⟩,
   ⟨center - 120, center - 100⟩,
   ⟨center - 120, center - 60⟩,
   ⟨center - 100, center - 40⟩,
   ⟨center - 120, center - 20⟩,
   ⟨center - 120, center + 20⟩,
   ⟨center - 100, center + 40⟩,
   ⟨center - 120, center + 60⟩,
   ⟨center - 120, center + 100⟩,
   ⟨center - 80, center + 100⟩]

/-- `right_points = [(center + (center - x), y) for x, y in left_points]`. -/
def right_points (center : Int) : List Pt :=
  (left_points center).map (fun p => ⟨center + (center - p.x), p.y⟩)

/-- `for i in range(len(points) - 1): create_smooth_line(draw, points[i], points[i+1], ...)`:
one line segment per consecutive pair of points. -/
def polyline_ops (pts : List Pt) (color : RGBA) (width : Int) : List DrawOp :=
  (pts.zip pts.tail).map (fun pq => create_smooth_line pq.1 pq.2 color width)

/-- The four marker-dot positions of `create_hq_bsl_logo`. -/
def hq_dot_points (center : Int) : List Pt :=
  [⟨center, center - 32⟩,
   ⟨center - 32, center⟩,
   ⟨center + 32, center⟩,
   ⟨center, center + 32⟩]

/-- The dot loop of `create_hq_bsl_logo`: for each point, a shadow circle at
offset `(+2, +2)` with radius `dot_radius + 1`, the main dot, and a highlight
circle at offset `(-3, -3)` with radius `dot_radius // 3`. -/
def hq_dot_ops (center dot_radius : Int) (dot_color shadow_color : RGBA) : List DrawOp :=
  ((hq_dot_points center).map (fun p =>
    [create_smooth_circle ⟨p.x + 2, p.y + 2⟩ (dot_radius + 1) shadow_color 0,
     create_smooth_circle p dot_radius dot_color 0,
     create_smooth_circle ⟨p.x - 3, p.y - 3⟩ (dot_radius / 3) ⟨255, 255, 255, 150⟩ 0])).flatten

/-- The `connections` loop of `create_hq_bsl_logo`: four translucent lines
joining the marker positions into a diamond. -/
def hq_connection_ops (center : Int) (line_color : RGBA) (line_width : Int) : List DrawOp :=
  [create_smooth_line ⟨center, center - 20⟩ ⟨center - 20, center⟩ line_color line_width,
   create_smooth_line ⟨center - 20, center⟩ ⟨center, center + 20⟩ line_color line_width,
   create_smooth_line ⟨center, center + 20⟩ ⟨center + 20, center⟩ line_color line_width,
   create_smooth_line ⟨center + 20, center⟩ ⟨center, center - 20⟩ line_color line_width]

/-- The gear ornament of `create_hq_bsl_logo`: shadow, base, inner disk,
center disk at `(center + 120, center + 120)`. -/
def hq_gear_ops (center : Int) : List DrawOp :=
  [create_smooth_circle ⟨center + 120 + 2, center + 120 + 2⟩ (16 + 2) ⟨0, 0, 0, 100⟩ 0,
   create_smooth_circle ⟨center + 120, center + 120⟩ 16 ⟨255, 255, 255, 230⟩ 0,
   create_smooth_circle ⟨center + 120, center + 120⟩ 8 ⟨206, 66, 43, 200⟩ 0,
   create_smooth_circle ⟨center + 120, center + 120⟩ (8 / 2) ⟨255, 255, 255, 255⟩ 0]

/-- `create_hq_bsl_logo(size=128)`: supersampled composition at `4 * size`,
then `resize((size, size), LANCZOS)` and one
`UnsharpMask(radius=0.5, percent=120, threshold=2)` pass.  `arialAvailable`
models whether `ImageFont.truetype("arial.ttf", ...)` succeeds. -/
def create_hq_bsl_logo (size : Int) (arialAvailable : Bool) : Img :=
  let scale : Int := 4
  let work_size := size * scale
  let img := Img.new ("RGBA") work_size work_size
  let center := work_size / 2
  let radius := work_size / 2 - 32
  let img := img.drawMany (hq_gradient_ops center radius)
  let inner_radius := radius - 32
  let img := img.draw (create_smooth_circle ⟨center, center⟩ inner_radius ⟨255, 255, 255, 40⟩ 4)
  let bracket_width : Int := 12
  let bracket_color : RGBA := ⟨255, 255, 255, 255⟩
  let img := img.drawMany (polyline_ops (left_points center) bracket_color bracket_width)
  let img := img.drawMany (polyline_ops (right_points center) bracket_color bracket_width)
  let dot_radius : Int := 12
  let dot_color : RGBA := ⟨0, 122, 204, 255⟩
  let shadow_color : RGBA := ⟨0, 100, 180, 100⟩
  let img := img.drawMany (hq_dot_ops center dot_radius dot_color shadow_color)
  let line_color : RGBA := ⟨255, 255, 255, 200⟩
  let line_width : Int := 6
  let img := img.drawMany (hq_connection_ops center line_color line_width)
  let img := img.drawMany (hq_gear_ops center)
  let text_center : Pt := ⟨center + 120, center - 120⟩
  let rect_size : Int := 32
  let img := img.draw (DrawOp.roundedRectangle (text_center.x - rect_size)
    (text_center.y - rect_size) (text_center.x + rect_size) (text_center.y + rect_size)
    8 ⟨255, 255, 255, 60⟩ ⟨255, 255, 255, 120⟩ 2)
  let font_size : Int := 40
  let font := load_font_with_fallback arialAvailable font_size
  let img := img.draw (DrawOp.text (text_center.x + 2) (text_center.y + 2) ("1C")
    ⟨0, 0, 0, 100⟩ font ("mm"))
  let img := img.draw (DrawOp.text text_center.x text_center.y ("1C")
    ⟨255, 255, 255, 255⟩ font ("mm"))
  let img := img.resize size size ResampleFilter.lanczos
  let img := img.unsharp (1/2 : ℚ) 120 2
  img

/-- `create_simplified_logo(size)`: flat composition at the target size — a
solid disk, two solid bracket bars, one solid center dot.
(The local `radius = size // 2 - 2` of the source is computed but unused.) -/
def create_simplified_logo (size : Int) : Img :=
  let img := Img.new ("RGBA") size size
  let center := size / 2
  let bracket_width := max 1 (size / 16)
  let dot_size := max 1 (size / 8)
  let img := img.draw (DrawOp.ellipseFill 2 2 (size - 2) (size - 2) ⟨206, 66, 43, 255⟩)
  let img := img.draw (DrawOp.rectFill (center / 2) (center / 2)
    (center / 2 + bracket_width) (center + center / 2) ⟨255, 255, 255, 255⟩)
  let img := img.draw (DrawOp.rectFill (center + center / 2) (center / 2)
    (center + center / 2 + bracket_width) (center + center / 2) ⟨255, 255, 255, 255⟩)
  let img := img.draw (DrawOp.ellipseFill (center - dot_size) (center - dot_size)
    (center + dot_size) (center + dot_size) ⟨0, 122, 204, 255⟩)
  img

/-- The size dispatch of `create_optimized_icons`:
`if size <= 24: create_simplified_logo(size) else: create_hq_bsl_logo(size)`. -/
def select_logo (size : Int) (arialAvailable : Bool) : Img :=
  if size ≤ 24 then create_simplified_logo size else create_hq_bsl_logo size arialAvailable

/-! ## `create_logo_png.py` -/

/-- `radius = size // 2 - 8` of `create_bsl_logo`. -/
def bsl_radius (size : Int) : Int :=
  size / 2 - 8

/-- The radius of the `i`-th gradient ring of `create_bsl_logo`: the ellipse
bounding box `[center-radius+i, ..., center+radius-i, ...]` spans a circle of
radius `radius - i`. -/
def bsl_ring_radius (size : Int) (i : Nat) : Int :=
  bsl_radius size - i

/-- `alpha = int(255 * (radius - i) / radius)` of `create_bsl_logo`, written
as the floor of the exact rational. -/
def bsl_grad_alpha (size : Int) (i : Nat) : Int :=
  (255 * (bsl_radius size - i)) / bsl_radius size

/-- The interpolated ring color of `create_bsl_logo`:
`r = int(206 - (206 - 139) * i / radius)`, `g = int(66 - (66 - 44) * i / radius)`,
`b = int(43 - (43 - 27) * i / radius)`, as floors of the exact rationals over
the common denominator `radius`. -/
def bsl_grad_color (size : Int) (i : Nat) : RGBA :=
  ⟨(206 * bsl_radius size - 67 * (i : Int)) / bsl_radius size,
   (66 * bsl_radius size - 22 * (i : Int)) / bsl_radius size,
   (43 * bsl_radius size - 16 * (i : Int)) / bsl_radius size,
   bsl_grad_alpha size i⟩

/-- One iteration of the gradient loop of `create_bsl_logo`: an unconditional
`draw.ellipse([center-radius+i, center-radius+i, center+radius-i, center+radius-i], ...)`. -/
def bsl_gradient_op (size : Int) (i : Nat) : DrawOp :=
  let center := size / 2
  DrawOp.ellipseFill (center - bsl_radius size + i) (center - bsl_radius size + i)
    (center + bsl_radius size - i) (center + bsl_radius size - i)
    (bsl_grad_color size i)

/-- `for i in range(radius): draw.ellipse(...)` of `create_bsl_logo`. -/
def bsl_gradient_ops (size : Int) : List DrawOp :=
  (List.range (bsl_radius size).toNat).map (bsl_gradient_op size)

/-- The `bracket_points_left` list of `create_bsl_logo`. -/
def bracket_points_left (center : Int) : List Pt :=
  [⟨center - 20, center - 25⟩, ⟨center - 30, center - 25⟩, ⟨center - 30, center - 15⟩,
   ⟨center - 25, center - 10⟩, ⟨center - 30, center - 5⟩, ⟨center - 30, center + 5⟩,
   ⟨center - 25, center + 10⟩, ⟨center - 30, center + 15⟩, ⟨center - 30, center + 25⟩,
   ⟨center - 20, center + 25⟩]

/-- The `bracket_points_right` list of `create_bsl_logo`. -/
def bracket_points_right (center : Int) : List Pt :=
  [⟨center + 20, center - 25⟩, ⟨center + 30, center - 25⟩, ⟨center + 30, center - 15⟩,
   ⟨center + 25, center - 10⟩, ⟨center + 30, center - 5⟩, ⟨center + 30, center + 5⟩,
   ⟨center + 25, center + 10⟩, ⟨center + 30, center + 15⟩, ⟨center + 30, center + 25⟩,
   ⟨center + 20, center + 25⟩]

/-- The bracket loop of `create_bsl_logo`: for each `i` in `range(len-1)`, a
left-bracket segment followed by the corresponding right-bracket segment. -/
def bsl_bracket_ops (center : Int) : List DrawOp :=
  (((bracket_points_left center).zip ((bracket_points_left center).tail)).zip
    ((bracket_points_right center).zip ((bracket_points_right center).tail))).map
      (fun lr => [DrawOp.line lr.1.1 lr.1.2 ⟨255, 255, 255, 255⟩ 3,
                  DrawOp.line lr.2.1 lr.2.2 ⟨255, 255, 255, 255⟩ 3])
    |>.flatten

/-- The marker-dot loop of `create_bsl_logo`. -/
def bsl_dot_ops (center : Int) : List DrawOp :=
  ([⟨center, center - 8⟩, ⟨center - 8, center⟩,
    ⟨center + 8, center⟩, ⟨center, center + 8⟩] : List Pt).map
    (fun p => DrawOp.ellipseFill (p.x - 3) (p.y - 3) (p.x + 3) (p.y + 3) ⟨0, 122, 204, 255⟩)

/-- The `connections` loop of `create_bsl_logo`. -/
def bsl_connection_ops (center : Int) : List DrawOp :=
  [DrawOp.line ⟨center, center - 5⟩ ⟨center - 5, center⟩ ⟨255, 255, 255, 200⟩ 2,
   DrawOp.line ⟨center - 5, center⟩ ⟨center, center + 5⟩ ⟨255, 255, 255, 200⟩ 2,
   DrawOp.line ⟨center, center + 5⟩ ⟨center + 5, center⟩ ⟨255, 255, 255, 200⟩ 2,
   DrawOp.line ⟨center + 5, center⟩ ⟨center, center - 5⟩ ⟨255, 255, 255, 200⟩ 2]

/-- `create_bsl_logo(size=128)`: direct composition at the target size; no
resize and no filter pass.  `arialAvailable` models whether
`ImageFont.truetype("arial.ttf", 10)` succeeds. -/
def create_bsl_logo (size : Int) (arialAvailable : Bool) : Img :=
  let img := Img.new ("RGBA") size size
  let center := size / 2
  let radius := size / 2 - 8
  let img := img.drawMany (bsl_gradient_ops size)
  let inner_radius := radius - 8
  let img := img.draw (DrawOp.ellipseOutline (center - inner_radius) (center - inner_radius)
    (center + inner_radius) (center + inner_radius) ⟨255, 255, 255, 50⟩ 1)
  let img := img.drawMany (bsl_bracket_ops center)
  let img := img.drawMany (bsl_dot_ops center)
  let img := img.drawMany (bsl_connection_ops center)
  let gear_center : Pt := ⟨center + 30, center + 30⟩
  let gear_radius : Int := 4
  let img := img.draw (DrawOp.ellipseFill (gear_center.x - gear_radius)
    (gear_center.y - gear_radius) (gear_center.x + gear_radius) (gear_center.y + gear_radius)
    ⟨255, 255, 255, 230⟩)
  let gear_inner : Int := 2
  let img := img.draw (DrawOp.ellipseFill (gear_center.x - gear_inner)
    (gear_center.y - gear_inner) (gear_center.x + gear_inner) (gear_center.y + gear_inner)
    ⟨206, 66, 43, 200⟩)
  let text_center : Pt := ⟨center + 30, center - 30⟩
  let img := img.draw (DrawOp.rectFill (text_center.x - 8) (text_center.y - 8)
    (text_center.x + 8) (text_center.y + 8) ⟨255, 255, 255, 50⟩)
  let font := load_font_with_fallback arialAvailable 10
  let img := img.draw (DrawOp.text text_center.x text_center.y ("1C")
    ⟨255, 255, 255, 255⟩ font ("mm"))
  img

/-! ## File writes

The scripts' only side effect is `logo.save(filename, "PNG", ...)` calls with
no surrounding try/except.  A filesystem is modelled as a predicate
`fs : String → Bool` telling whether writing a given path succeeds; a failing
write raises, which (with no handler anywhere) aborts the run with that
exception and leaves the already-written files in place. -/

/-- The size-to-suffix map of `create_optimized_icons`. -/
def icon_sizes : List (Int × String) :=
  [(16, ("small")), (24, ("medium")), (32, ("large")), (48, ("xlarge")), (128, ("icon"))]

/-- `filename = f"vscode-extension/images/bsl-analyzer-{suffix}.png"`. -/
def icon_filename (suffix : String) : String :=
  ("vscode-extension/images/bsl-analyzer-") ++ suffix ++ (".png")

/-- The `icons_created` entry `f"{size}x{size} -> {filename}"`. -/
def icon_label (size : Int) (filename : String) : String :=
  toString size ++ ("x") ++ toString size ++ (" -> ") ++ filename

/-- The loop of `create_optimized_icons`, threading the list of files written
so far.  A failed save aborts immediately (the exception propagates); the
files already written are left untouched. -/
def icons_go (arialAvailable : Bool) (fs : String → Bool) :
    List (Int × String) → List String → List String →
      Except String (List String) × List String
  | [], created, written => (Except.ok created, written)
  | (size, suffix) :: rest, created, written =>
    let _logo := select_logo size arialAvailable
    let filename := icon_filename suffix
    if fs filename then
      icons_go arialAvailable fs rest (created ++ [icon_label size filename])
        (written ++ [filename])
    else
      (Except.error filename, written)

/-- `create_optimized_icons()`: returns the outcome (the `icons_created` list,
or the exception raised by the first failing save) together with the list of
files actually written, in order. -/
def create_optimized_icons (arialAvailable : Bool) (fs : String → Bool) :
    Except String (List String) × List String :=
  icons_go arialAvailable fs icon_sizes [] []

/-- The files written by the `__main__` block of `create_logo_png.py`:
the main logo, then `f"vscode-extension/images/bsl-analyzer-logo-{size}.png"`
for sizes 32, 64, 256. -/
def png_main_files : List String :=
  ("vscode-extension/images/bsl-analyzer-logo.png") ::
    ([32, 64, 256] : List Int).map
      (fun size => ("vscode-extension/images/bsl-analyzer-logo-") ++ toString size ++ (".png"))

/-- The save sequence of a `__main__` block: each save either succeeds and is
recorded, or raises and aborts the remainder of the run. -/
def saves_go (fs : String → Bool) : List String → List String →
    Except String Unit × List String
  | [], written => (Except.ok (), written)
  | f :: rest, written =>
    if fs f then saves_go fs rest (written ++ [f])
    else (Except.error f, written)

/-- The `__main__` block of `create_logo_png.py` (its image generations are
pure; only the save calls touch the filesystem). -/
def logo_png_main (fs : String → Bool) : Except String Unit × List String :=
  saves_go fs png_main_files []

/-! ## Alpha compositing (spec-modelled)

The per-pixel blending of the draw calls is implemented inside the imaging
library (PIL), whose rasterizer is not part of this repository; `src/` only
contains its callers.  Following the spec — "alpha blending is straight
(non-premultiplied) over compositing" and "later draws composite over earlier
ones — paint order is the only z-ordering mechanism" — a pixel is a straight
(non-premultiplied) RGBA value with rational channels normalized to `[0, 1]`,
and a draw is folded over the canvas in paint order with the standard
source-over operator. -/

/-- A straight (non-premultiplied) RGBA pixel with channels in `[0, 1]`. -/
structure PixelQ where
  r : ℚ
  g : ℚ
  b : ℚ
  a : ℚ
deriving DecidableEq, Repr

/-- Normalize an 8-bit-per-channel color to a `[0, 1]`-valued pixel. -/
def RGBA.toQ (c : RGBA) : PixelQ :=
  ⟨(c.r : ℚ) / 255, (c.g : ℚ) / 255, (c.b : ℚ) / 255, (c.a : ℚ) / 255⟩

/-- Modelled from the spec: straight (non-premultiplied) source-over alpha
compositing — `αo = αs + αd (1 - αs)` and, when `αo ≠ 0`,
`Co = (Cs αs + Cd αd (1 - αs)) / αo`.  The implementation (PIL's rasterizer)
is not under `src/`. -/
def overComposite (src dst : PixelQ) : PixelQ :=
  let ao := src.a + dst.a * (1 - src.a)
  if ao = 0 then ⟨0, 0, 0, 0⟩
  else
    ⟨(src.r * src.a + dst.r * dst.a * (1 - src.a)) / ao,
     (src.g * src.a + dst.g * dst.a * (1 - src.a)) / ao,
     (src.b * src.a + dst.b * dst.a * (1 - src.a)) / ao,
     ao⟩

/-- Modelled from the spec: the value of a canvas pixel after an ordered list
of draw calls — each draw whose shape covers the pixel (coverage given by the
rasterizer's `covers` relation) is composited over the accumulated value, in
paint order. -/
def renderPixel (covers : DrawOp → Pt → Bool) (background : PixelQ)
    (ops : List DrawOp) (p : Pt) : PixelQ :=
  ops.foldl
    (fun acc op => if covers op p then overComposite (op.fillColor.toQ) acc else acc)
    background

/-! ## Helper lemmas -/

/-- `filterMap` over a list on which the function is everywhere `some` keeps
every element. -/
lemma length_filterMap_of_isSome {α β : Type} (f : α → Option β) :
    ∀ l : List α, (∀ a ∈ l, (f a).isSome) → (l.filterMap f).length = l.length := by
  intro l
  induction l with
  | nil => intro _; rfl
  | cons a t ih =>
    intro h
    have ha := h a (List.mem_cons_self a t)
    cases hfa : f a with
    | none => rw [hfa] at ha; simp at ha
    | some b =>
      simp only [List.filterMap_cons, hfa, List.length_cons]
      rw [ih (fun x hx => h x (List.mem_cons_of_mem a hx))]

/-- Characterization of the icon-save loop: the result is `ok` with all labels
exactly when every save succeeds, otherwise the error raised by the first
failing save; the files written are exactly the successful prefix. -/
lemma icons_go_spec (fa : Bool) (fs : String → Bool) :
    ∀ (l : List (Int × String)) (created written : List String),
      icons_go fa fs l created written =
        ((match (l.map (fun p => icon_filename p.2)).dropWhile fs with
          | [] => Except.ok (created ++ l.map (fun p => icon_label p.1 (icon_filename p.2)))
          | f :: _ => Except.error f),
         written ++ (l.map (fun p => icon_filename p.2)).takeWhile fs) := by
  intro l
  induction l with
  | nil => intro created written; simp [icons_go]
  | cons hd t ih =>
    intro created written
    obtain ⟨size, suffix⟩ := hd
    by_cases hfs : fs (icon_filename suffix)
    · simp only [icons_go, hfs, if_true, ih, List.map_cons, List.dropWhile_cons,
        List.takeWhile_cons, List.append_assoc, List.singleton_append]
    · simp only [icons_go, hfs, if_false, List.map_cons, List.dropWhile_cons,
        List.takeWhile_cons]
      rw [if_neg (by simp [hfs]), if_neg (by simp [hfs])]
      simp

/-- Characterization of a `__main__` save sequence: analogous to
`icons_go_spec`. -/
lemma saves_go_spec (fs : String → Bool) :
    ∀ (l written : List String),
      saves_go fs l written =
        ((match l.dropWhile fs with
          | [] => Except.ok ()
          | f :: _ => Except.error f),
         written ++ l.takeWhile fs) := by
  intro l
  induction l with
  | nil => intro written; simp [saves_go]
  | cons f t ih =>
    intro written
    by_cases hfs : fs f
    · simp only [saves_go, hfs, if_true, ih, List.dropWhile_cons, List.takeWhile_cons,
        List.append_assoc, List.singleton_append]
    · simp only [saves_go, hfs, if_false, List.dropWhile_cons, List.takeWhile_cons]
      rw [if_neg (by simp [hfs]), if_neg (by simp [hfs])]
      simp

/-! ## Claims -/

/-- C1: for every requested size `S > 0`, each generator
(`create_hq_bsl_logo`, `create_simplified_logo`, `create_bsl_logo`) returns
an RGBA image whose pixel dimensions are exactly `S × S`. -/
theorem c1_output_dimensions (S : Int) (hS : 0 < S) (fa : Bool) :
    ((create_hq_bsl_logo S fa).width = S ∧ (create_hq_bsl_logo S fa).height = S ∧
      (create_hq_bsl_logo S fa).mode = ("RGBA")) ∧
    ((create_simplified_logo S).width = S ∧ (create_simplified_logo S).height = S ∧
      (create_simplified_logo S).mode = ("RGBA")) ∧
    ((create_bsl_logo S fa).width = S ∧ (create_bsl_logo S fa).height = S ∧
      (create_bsl_logo S fa).mode = ("RGBA")) := by
  refine ⟨⟨?_, ?_, ?_⟩, ⟨?_, ?_, ?_⟩, ⟨?_, ?_, ?_⟩⟩ <;>
    simp [create_hq_bsl_logo, create_simplified_logo, create_bsl_logo]

theorem c1_output_dimensions_witness :
    0 < (128 : Int) ∧
    (((create_hq_bsl_logo 128 true).width = 128 ∧ (create_hq_bsl_logo 128 true).height = 128 ∧
       (create_hq_bsl_logo 128 true).mode = ("RGBA")) ∧
     ((create_simplified_logo 128).width = 128 ∧ (create_simplified_logo 128).height = 128 ∧
       (create_simplified_logo 128).mode = ("RGBA")) ∧
     ((create_bsl_logo 128 true).width = 128 ∧ (create_bsl_logo 128 true).height = 128 ∧
       (create_bsl_logo 128 true).mode = ("RGBA"))) :=
  ⟨by norm_num, c1_output_dimensions 128 (by norm_num) true⟩

/-- C2: in both generators, the right bracket's point list is, index by
index, the left bracket's point list reflected about the canvas's vertical
center line: each `(x, y)` becomes `(2 * center - x, y)` with `y` unchanged. -/
theorem c2_bracket_mirror (center : Int) :
    right_points center =
      (left_points center).map (fun p => (⟨2 * center - p.x, p.y⟩ : Pt)) ∧
    bracket_points_right center =
      (bracket_points_left center).map (fun p => (⟨2 * center - p.x, p.y⟩ : Pt)) := by
  constructor <;>
    simp only [right_points, left_points, bracket_points_left, bracket_points_right,
      List.map_cons, List.map_nil, List.cons.injEq, Pt.mk.injEq, and_true] <;>
    omega

/-- C6: the generators are deterministic — two invocations with identical
size input (and identical font availability, and for the icon script an
identical filesystem) produce identical outputs. -/
theorem c6_deterministic (s1 s2 : Int) (f1 f2 : Bool) (fs : String → Bool)
    (hs : s1 = s2) (hf : f1 = f2) :
    create_hq_bsl_logo s1 f1 = create_hq_bsl_logo s2 f2 ∧
    create_simplified_logo s1 = create_simplified_logo s2 ∧
    create_bsl_logo s1 f1 = create_bsl_logo s2 f2 ∧
    create_optimized_icons f1 fs = create_optimized_icons f2 fs := by
  subst hs; subst hf
  exact ⟨rfl, rfl, rfl, rfl⟩

/-- The detailed-pipeline contract asserted by C3: the working canvas is
allocated at 4× the final size, and the recorded post-processing is exactly a
Lanczos resample to the final size followed by a single
`UnsharpMask(0.5, 120, 2)` pass. -/
def detailed_pipeline (img : Img) (size : Int) : Prop :=
  img.allocW = 4 * size ∧ img.allocH = 4 * size ∧
  img.postSteps = [PostStep.resample size size ResampleFilter.lanczos,
                   PostStep.unsharpMask (1/2 : ℚ) 120 2]

/-- C3 counterexample: `create_bsl_logo` — cited by the claim as part of the
icon generator's detailed contract — does not follow the supersampling
pipeline: at size 128 it allocates its canvas at 128 (not 512) and performs
no resample and no unsharp-mask pass. -/
theorem c3_counterexample : ¬ detailed_pipeline (create_bsl_logo 128 true) 128 := by
  intro h
  obtain ⟨h1, -, -⟩ := h
  simp [create_bsl_logo, detailed_pipeline] at h1

/-- C3 (amended): the 4×-supersample / Lanczos-downsample / single-unsharp
pipeline holds for every invocation of `create_hq_bsl_logo`; `create_bsl_logo`
instead composites directly at the final size, with no resampling and no
sharpening step. -/
theorem c3_amended_pipeline (size : Int) (fa : Bool) :
    detailed_pipeline (create_hq_bsl_logo size fa) size ∧
    (create_bsl_logo size fa).allocW = size ∧
    (create_bsl_logo size fa).postSteps = [] := by
  refine ⟨⟨?_, ?_, ?_⟩, ?_, ?_⟩ <;>
    simp [create_hq_bsl_logo, create_bsl_logo, detailed_pipeline] <;>
    omega

/-- C4: for every size at most 24, the dispatch of `create_optimized_icons`
selects the simplified generator, whose output is a flat composition — four
draw calls (one solid disk, two solid bracket bars, one solid center dot),
all fully opaque, with no supersampling, no resampling and no filter pass;
for every size greater than 24, the detailed generator runs, with its full
supersample/downsample/sharpen pipeline. -/
theorem c4_simplified_threshold (size : Int) (fa : Bool) :
    (size ≤ 24 →
      select_logo size fa = create_simplified_logo size ∧
      (create_simplified_logo size).allocW = size ∧
      (create_simplified_logo size).postSteps = [] ∧
      (create_simplified_logo size).ops.length = 4 ∧
      (∀ op ∈ (create_simplified_logo size).ops,
        op.fillColor.a = 255 ∧ (op.isEllipseFill || op.isRectFill) = true) ∧
      (create_simplified_logo size).ops.countP (fun op => op.isEllipseFill) = 2 ∧
      (create_simplified_logo size).ops.countP (fun op => op.isRectFill) = 2) ∧
    (24 < size →
      select_logo size fa = create_hq_bsl_logo size fa ∧
      detailed_pipeline (create_hq_bsl_logo size fa) size) := by
  constructor
  · intro h
    refine ⟨by rw [select_logo, if_pos h], ?_, ?_, ?_, ?_, ?_, ?_⟩ <;>
      simp [create_simplified_logo, DrawOp.fillColor, DrawOp.isEllipseFill,
        DrawOp.isRectFill, List.countP_cons]
  · intro h
    refine ⟨by rw [select_logo, if_neg (by omega)], ⟨?_, ?_, ?_⟩⟩ <;>
      simp [create_hq_bsl_logo, detailed_pipeline] <;>
      omega

theorem c4_simplified_threshold_witness :
    select_logo 16 true = create_simplified_logo 16 ∧
    select_logo 128 true = create_hq_bsl_logo 128 true :=
  ⟨((c4_simplified_threshold 16 true).1 (by norm_num)).1,
   ((c4_simplified_threshold 128 true).2 (by norm_num)).1⟩

/-- C5: when loading `"arial.ttf"` fails, both generators substitute PIL's
built-in default font and still render the `"1C"` badge text (the text draw
call is present in the trace, and generation runs to completion, returning an
image). -/
theorem c5_font_fallback (size : Int) :
    load_font_with_fallback false 40 = Font.builtin ∧
    load_font_with_fallback false 10 = Font.builtin ∧
    (∃ x y : Int, DrawOp.text x y ("1C") ⟨255, 255, 255, 255⟩ Font.builtin ("mm")
        ∈ (create_hq_bsl_logo size false).ops) ∧
    (∃ x y : Int, DrawOp.text x y ("1C") ⟨255, 255, 255, 255⟩ Font.builtin ("mm")
        ∈ (create_bsl_logo size false).ops) := by
  refine ⟨rfl, rfl, ⟨size * 4 / 2 + 120, size * 4 / 2 - 120, ?_⟩,
    ⟨size / 2 + 30, size / 2 - 30, ?_⟩⟩ <;>
    simp [create_hq_bsl_logo, create_bsl_logo, load_font_with_fallback]

theorem c6_deterministic_witness :
    create_hq_bsl_logo 128 true = create_hq_bsl_logo 128 true ∧
    create_simplified_logo 128 = create_simplified_logo 128 ∧
    create_bsl_logo 128 true = create_bsl_logo 128 true ∧
    create_optimized_icons true (fun _ => true) = create_optimized_icons true (fun _ => true) :=
  c6_deterministic 128 128 true true (fun _ => true) rfl rfl

/-- C7 (spec-modelled compositing): appending a draw call to the paint
sequence composites its color over — rather than replaces — the previously
accumulated pixel value, so paint order is the only z-ordering mechanism; an
opaque source does replace the destination color channels, while a partially
transparent source (the dot highlights, alpha 150) over the opaque disk color
yields a genuine blend, different from both layers. -/
theorem c7_over_compositing (covers : DrawOp → Pt → Bool) (background : PixelQ)
    (ops : List DrawOp) (op : DrawOp) (p : Pt) (c : RGBA) (d : PixelQ) :
    renderPixel covers background (ops ++ [op]) p =
      (if covers op p then
        overComposite op.fillColor.toQ (renderPixel covers background ops p)
       else renderPixel covers background ops p) ∧
    overComposite (RGBA.toQ ⟨c.r, c.g, c.b, 255⟩) d =
      ⟨(c.r : ℚ) / 255, (c.g : ℚ) / 255, (c.b : ℚ) / 255, 1⟩ ∧
    overComposite (RGBA.toQ ⟨255, 255, 255, 150⟩) (RGBA.toQ ⟨206, 66, 43, 255⟩) ≠
      RGBA.toQ ⟨255, 255, 255, 150⟩ ∧
    overComposite (RGBA.toQ ⟨255, 255, 255, 150⟩) (RGBA.toQ ⟨206, 66, 43, 255⟩) ≠
      RGBA.toQ ⟨206, 66, 43, 255⟩ := by
  refine ⟨?_, ?_, ?_, ?_⟩
  · simp [renderPixel, List.foldl_append]
  · simp only [overComposite, RGBA.toQ]
    norm_num
  · intro h
    rw [show (RGBA.toQ ⟨255, 255, 255, 150⟩) = ⟨1, 1, 1, 10/17⟩ by
          simp only [RGBA.toQ]; norm_num,
        show (RGBA.toQ ⟨206, 66, 43, 255⟩) = ⟨206/255, 66/255, 43/255, 1⟩ by
          simp only [RGBA.toQ]; norm_num] at h
    simp only [overComposite] at h
    norm_num at h
  · intro h
    rw [show (RGBA.toQ ⟨255, 255, 255, 150⟩) = ⟨1, 1, 1, 10/17⟩ by
          simp only [RGBA.toQ]; norm_num,
        show (RGBA.toQ ⟨206, 66, 43, 255⟩) = ⟨206/255, 66/255, 43/255, 1⟩ by
          simp only [RGBA.toQ]; norm_num] at h
    simp only [overComposite] at h
    norm_num at h

/-- C8: in the gradient stage of `create_hq_bsl_logo`, an iteration whose
computed radius is non-positive draws nothing (skip), and one with positive
radius draws a filled circle with the interpolated color, which appears in
the emitted op list; the ring alpha is strictly decreasing over iterations.
In `create_bsl_logo` every iteration's computed radius is positive, the ring
is drawn (consistently with the skip policy, whose premise never holds
there), and the ring alpha is non-increasing. -/
theorem c8_ring_edge_policy (center radius size : Int) (i k : Nat)
    (hi : i < 50) (hk : (k : Int) < bsl_radius size) :
    (hq_gradient_op center radius i = none ↔ hq_current_radius radius i ≤ 0) ∧
    (0 < hq_current_radius radius i →
      hq_gradient_op center radius i =
        some (create_smooth_circle ⟨center, center⟩ (hq_current_radius radius i)
          (hq_grad_color i) 0) ∧
      create_smooth_circle ⟨center, center⟩ (hq_current_radius radius i) (hq_grad_color i) 0
        ∈ hq_gradient_ops center radius) ∧
    (∀ j : Nat, j < i → hq_grad_alpha i < hq_grad_alpha j) ∧
    0 < bsl_ring_radius size k ∧
    bsl_gradient_op size k ∈ bsl_gradient_ops size ∧
    (∀ m : Nat, m ≤ k → bsl_grad_alpha size k ≤ bsl_grad_alpha size m) := by
  refine ⟨?_, ?_, ?_, ?_, ?_, ?_⟩
  · by_cases hc : 0 < hq_current_radius radius i <;> simp [hq_gradient_op, hc] <;> omega
  · intro hc
    refine ⟨by simp [hq_gradient_op, hc], ?_⟩
    rw [hq_gradient_ops, List.mem_filterMap]
    exact ⟨i, List.mem_range.mpr hi, by simp [hq_gradient_op, hc]⟩
  · intro j hj
    simp only [hq_grad_alpha]
    omega
  · simp only [bsl_ring_radius]
    omega
  · exact List.mem_map_of_mem (bsl_gradient_op size) (List.mem_range.mpr (by omega))
  · intro m hm
    have hR : 0 < bsl_radius size := by omega
    exact Int.ediv_le_ediv hR (by omega)

theorem c8_ring_edge_policy_witness :
    (hq_gradient_op 256 224 10 = none ↔ hq_current_radius 224 10 ≤ 0) ∧
    hq_grad_alpha 10 < hq_grad_alpha 3 ∧
    0 < bsl_ring_radius 128 5 ∧
    bsl_grad_alpha 128 5 ≤ bsl_grad_alpha 128 2 :=
  ⟨(c8_ring_edge_policy 256 224 128 10 5 (by norm_num) (by decide)).1,
   (c8_ring_edge_policy 256 224 128 10 5 (by norm_num) (by decide)).2.2.1 3 (by norm_num),
   (c8_ring_edge_policy 256 224 128 10 5 (by norm_num) (by decide)).2.2.2.1,
   (c8_ring_edge_policy 256 224 128 10 5 (by norm_num) (by decide)).2.2.2.2.2 2 (by norm_num)⟩

/-- C9: a failing PNG save is fatal and unrecovered in both scripts: the run
ends with the exception of the first failing write (no retry — each path is
attempted at most once, and nothing after the failure runs), and the files
already written — exactly the successful prefix — are left in place (no
partial-output cleanup). -/
theorem c9_write_failure_fatal (fa : Bool) (fs : String → Bool) :
    create_optimized_icons fa fs =
      ((match (icon_sizes.map (fun p => icon_filename p.2)).dropWhile fs with
        | [] => Except.ok (icon_sizes.map (fun p => icon_label p.1 (icon_filename p.2)))
        | f :: _ => Except.error f),
       (icon_sizes.map (fun p => icon_filename p.2)).takeWhile fs) ∧
    logo_png_main fs =
      ((match png_main_files.dropWhile fs with
        | [] => Except.ok ()
        | f :: _ => Except.error f),
       png_main_files.takeWhile fs) := by
  constructor
  · rw [create_optimized_icons, icons_go_spec]
    simp
  · rw [logo_png_main, saves_go_spec]
    simp

/-- C10 (implicit): in `create_hq_bsl_logo`, the disk radius
`work_size // 2 - 32 = 2 * size - 32` is at least 1 exactly when
`size ≥ 17`, and for every such size all 50 gradient iterations compute a
strictly positive `current_radius` (since `i * radius // 50 < radius` for
`i ≤ 49`), so the skip branch is unreachable and exactly 50 rings are
drawn. -/
theorem c10_all_rings_drawn (size : Int) (h17 : 17 ≤ size) :
    (∀ s : Int, 1 ≤ s * 4 / 2 - 32 ↔ 17 ≤ s) ∧
    (∀ i : Nat, i < 50 → 0 < hq_current_radius (size * 4 / 2 - 32) i) ∧
    (hq_gradient_ops (size * 4 / 2) (size * 4 / 2 - 32)).length = 50 := by
  have hpos : ∀ i : Nat, i < 50 → 0 < hq_current_radius (size * 4 / 2 - 32) i := by
    intro i hi
    simp only [hq_current_radius]
    have h1 : (i : Int) * (size * 4 / 2 - 32) ≤ 49 * (size * 4 / 2 - 32) :=
      mul_le_mul_of_nonneg_right (by omega) (by omega)
    have h2 := Int.ediv_le_ediv (by norm_num : (0 : Int) < 50) h1
    have h3 := Int.ediv_add_emod (49 * (size * 4 / 2 - 32)) 50
    have h4 := Int.emod_nonneg (49 * (size * 4 / 2 - 32)) (by norm_num : (50 : Int) ≠ 0)
    omega
  refine ⟨fun s => by omega, hpos, ?_⟩
  rw [hq_gradient_ops, length_filterMap_of_isSome]
  · exact List.length_range 50
  · intro a ha
    have := hpos a (List.mem_range.mp ha)
    simp [hq_gradient_op, this]

theorem c10_all_rings_drawn_witness :
    17 ≤ (128 : Int) ∧
    0 < hq_current_radius (128 * 4 / 2 - 32) 49 ∧
    (hq_gradient_ops (128 * 4 / 2) (128 * 4 / 2 - 32)).length = 50 :=
  ⟨by norm_num,
   (c10_all_rings_drawn 128 (by norm_num)).2.1 49 (by norm_num),
   (c10_all_rings_drawn 128 (by norm_num)).2.2⟩

end BslLogo
